import Mathlib

/-!
Shallow embedding of the `release-github-actions` scripts and proofs of the
frozen claims about them.  Each Python function that a claim touches is
translated into an executable Lean definition; process-level behaviour
(`sys.exit`, the sequence of remote calls, stdout/stderr lines) is made
explicit in the result types.
-/

namespace ReleaseActions

/-! ## lock-branch: `utils.py` and `lock_branch.py` -/

/-- A value that may be a Python `bool` or a Python `str`, mirroring the
dynamic argument of `parse_bool` (which checks `isinstance(value, bool)`). -/
inductive PyBoolOrStr where
  | bool (b : Bool)
  | str (s : String)
deriving DecidableEq, Repr

/-- Python's `str.lower()` (ASCII case-folding, which covers every input the
scripts feed it). -/
def pyLower (s : String) : String := ⟨s.data.map Char.toLower⟩

/-- `utils.parse_bool`: booleans pass through; a string yields `True` exactly
when its lowercasing is one of `'true'`, `'1'`, `'yes'`. -/
def parse_bool : PyBoolOrStr → Bool
  | .bool b => b
  | .str s => ["true", "1", "yes"].contains (pyLower s)

/-- Python's `str(b).lower()` for a `bool`. -/
def pyBoolStr (b : Bool) : String := if b then "true" else "false"

/-- `required_status_checks` as found in a fetched protection record;
inner fields are optional because the code reads them with `.get(..., default)`. -/
structure StatusChecksIn where
  strict : Option Bool
  contexts : Option (List String)
deriving DecidableEq, Repr

/-- `required_status_checks` as emitted in the update payload. -/
structure StatusChecksOut where
  strict : Bool
  contexts : List String
deriving DecidableEq, Repr

/-- `required_pull_request_reviews` as found in a fetched protection record. -/
structure PrReviewsIn where
  dismiss_stale_reviews : Option Bool
  require_code_owner_reviews : Option Bool
  required_approving_review_count : Option Nat
deriving DecidableEq, Repr

/-- `required_pull_request_reviews` as emitted in the update payload. -/
structure PrReviewsOut where
  dismiss_stale_reviews : Bool
  require_code_owner_reviews : Bool
  required_approving_review_count : Nat
deriving DecidableEq, Repr

/-- A user object inside `restrictions.users` (the code reads `u['login']`). -/
structure UserRef where
  login : String
deriving DecidableEq, Repr

/-- A team object inside `restrictions.teams` (the code reads `t['slug']`). -/
structure TeamRef where
  slug : String
deriving DecidableEq, Repr

/-- An app object inside `restrictions.apps` (the code reads `a['slug']`). -/
structure AppRef where
  slug : String
deriving DecidableEq, Repr

/-- `restrictions` as found in a fetched protection record. -/
structure RestrictionsIn where
  users : Option (List UserRef)
  teams : Option (List TeamRef)
  apps : Option (List AppRef)
deriving DecidableEq, Repr

/-- `restrictions` as emitted in the update payload. -/
structure RestrictionsOut where
  users : List String
  teams : List String
  apps : List String
deriving DecidableEq, Repr

/-- A fetched branch-protection record, as read field by field in
`lock_branch.py`.  Each top-level sub-setting the code accesses with
`.get(key)` or `.get(key, {}).get('enabled', False)` is an `Option`;
`none` stands for an absent (or falsy) entry. -/
structure BranchProtection where
  lock_branch : Option Bool
  enforce_admins : Option Bool
  required_status_checks : Option StatusChecksIn
  required_pull_request_reviews : Option PrReviewsIn
  restrictions : Option RestrictionsIn
  required_linear_history : Option Bool
  allow_force_pushes : Option Bool
  allow_deletions : Option Bool
  block_creations : Option Bool
  required_conversation_resolution : Option Bool
  allow_fork_syncing : Option Bool
deriving DecidableEq, Repr

/-- The full replacement payload built by `build_protection_payload`. -/
structure ProtectionPayload where
  required_status_checks : Option StatusChecksOut
  enforce_admins : Bool
  required_pull_request_reviews : Option PrReviewsOut
  restrictions : Option RestrictionsOut
  lock_branch : Bool
  required_linear_history : Bool
  allow_force_pushes : Bool
  allow_deletions : Bool
  block_creations : Bool
  required_conversation_resolution : Bool
  allow_fork_syncing : Bool
deriving DecidableEq, Repr

/-- `lock_branch.build_protection_payload`: with no prior record it returns the
documented safe defaults plus the requested lock flag; with a prior record it
copies every sub-setting forward (with the code's `.get` defaults) and sets
`lock_branch` to the requested value. -/
def build_protection_payload (current_protection : Option BranchProtection)
    (lock : Bool) : ProtectionPayload :=
  match current_protection with
  | none =>
    { required_status_checks := none
      enforce_admins := true
      required_pull_request_reviews := none
      restrictions := none
      lock_branch := lock
      required_linear_history := true
      allow_force_pushes := false
      allow_deletions := false
      block_creations := false
      required_conversation_resolution := false
      allow_fork_syncing := false }
  | some cp =>
    { lock_branch := lock
      enforce_admins := cp.enforce_admins.getD false
      required_status_checks := cp.required_status_checks.map fun sc =>
        { strict := sc.strict.getD false
          contexts := sc.contexts.getD [] }
      required_pull_request_reviews := cp.required_pull_request_reviews.map fun pr =>
        { dismiss_stale_reviews := pr.dismiss_stale_reviews.getD false
          require_code_owner_reviews := pr.require_code_owner_reviews.getD false
          required_approving_review_count := pr.required_approving_review_count.getD 0 }
      restrictions := cp.restrictions.map fun r =>
        { users := (r.users.getD []).map UserRef.login
          teams := (r.teams.getD []).map TeamRef.slug
          apps := (r.apps.getD []).map AppRef.slug }
      required_linear_history := cp.required_linear_history.getD false
      allow_force_pushes := cp.allow_force_pushes.getD false
      allow_deletions := cp.allow_deletions.getD false
      block_creations := cp.block_creations.getD false
      required_conversation_resolution := cp.required_conversation_resolution.getD false
      allow_fork_syncing := cp.allow_fork_syncing.getD false }

/-- `lock_branch.is_branch_locked`. -/
def is_branch_locked : Option BranchProtection → Bool
  | none => false
  | some p => p.lock_branch.getD false

/-- The decision core of `lock_branch.main` after the protection record has
been fetched: the first component lists the payloads passed to
`update_branch_lock` (one entry per mutating `PUT`), the second is the exact
sequence of stdout lines. -/
def lock_branch_main (current_protection : Option BranchProtection)
    (freeze : Bool) (branch : String) : List ProtectionPayload × List String :=
  let previous_locked := is_branch_locked current_protection
  let mutations :=
    if previous_locked = freeze then []
    else [build_protection_payload current_protection freeze]
  (mutations,
    ["previous_state=" ++ pyBoolStr previous_locked,
     "current_state=" ++ pyBoolStr freeze,
     "branch=" ++ branch])

/-! ## get-jira-release-notes: `get_jira_release_notes.py` -/

/-- A Jira issue as consumed by the release-notes formatters: the code reads
`issue.key`, `issue.fields.summary` and `issue.fields.issuetype.name`. -/
structure Issue where
  key : String
  summary : String
  issuetype : String
deriving DecidableEq, Repr

/-- Python's `jira_url.rstrip('/')`: drop every trailing `'/'`. -/
def rstripSlash (s : String) : String :=
  ⟨(s.data.reverse.dropWhile (· = '/')).reverse⟩

/-- The markdown line the formatter emits for one issue:
`[KEY](URL/browse/KEY) SUMMARY`. -/
def mdIssueLine (jira_url : String) (i : Issue) : String :=
  "[" ++ i.key ++ "](" ++ rstripSlash jira_url ++ "/browse/" ++ i.key ++ ") " ++ i.summary

/-- The Jira-markup line the formatter emits for one issue:
`[KEY|URL/browse/KEY] SUMMARY`. -/
def jiraIssueLine (jira_url : String) (i : Issue) : String :=
  "[" ++ i.key ++ "|" ++ rstripSlash jira_url ++ "/browse/" ++ i.key ++ "] " ++ i.summary

/-- `format_notes_as_markdown`.  `categorized_issues[c]` holds the issues of
type `c` in input order, and a category of the order is emitted exactly when
that list is non-empty; otherwise the function is a straight transcription of
the Python line building. -/
def format_notes_as_markdown (issues : List Issue) (jira_url project_name version : String)
    (category_order : List String) : String :=
  if issues.isEmpty then
    "# Release notes - " ++ project_name ++ " - " ++ version ++
      "\n\nNo issues found for this release."
  else
    String.intercalate "\n"
      (("# Release notes - " ++ project_name ++ " - " ++ version ++ "\n") ::
        category_order.flatMap fun category_name =>
          let group := issues.filter fun i => i.issuetype = category_name
          if group.isEmpty then []
          else ("### " ++ category_name) :: (group.map (mdIssueLine jira_url) ++ [""]))

/-- `format_notes_as_jira_markup`: identical grouping, Jira heading/link syntax. -/
def format_notes_as_jira_markup (issues : List Issue) (jira_url project_name version : String)
    (category_order : List String) : String :=
  if issues.isEmpty then
    "h1. Release notes - " ++ project_name ++ " - " ++ version ++
      "\n\nNo issues found for this release."
  else
    String.intercalate "\n"
      (("h1. Release notes - " ++ project_name ++ " - " ++ version ++ "\n") ::
        category_order.flatMap fun category_name =>
          let group := issues.filter fun i => i.issuetype = category_name
          if group.isEmpty then []
          else ("h3. " ++ category_name) :: (group.map (jiraIssueLine jira_url) ++ [""]))

/-- Spec-side view of the grouping: the ordered list of populated sections,
each a category name paired with its issues. -/
def sectionsOf (issues : List Issue) (category_order : List String) :
    List (String × List Issue) :=
  category_order.filterMap fun c =>
    let group := issues.filter fun i => i.issuetype = c
    if group.isEmpty then none else some (c, group)

/-- Spec-side markdown assembly from a section list. -/
def mkMarkdown (jira_url project_name version : String)
    (sections : List (String × List Issue)) : String :=
  String.intercalate "\n"
    (("# Release notes - " ++ project_name ++ " - " ++ version ++ "\n") ::
      sections.flatMap fun s =>
        ("### " ++ s.1) :: (s.2.map (mdIssueLine jira_url) ++ [""]))

/-- Spec-side Jira-markup assembly from a section list. -/
def mkJiraMarkup (jira_url project_name version : String)
    (sections : List (String × List Issue)) : String :=
  String.intercalate "\n"
    (("h1. Release notes - " ++ project_name ++ " - " ++ version ++ "\n") ::
      sections.flatMap fun s =>
        ("h3. " ++ s.1) :: (s.2.map (jiraIssueLine jira_url) ++ [""]))

/-- The issues actually rendered, in rendering order. -/
def renderedIssues (issues : List Issue) (category_order : List String) : List Issue :=
  (sectionsOf issues category_order).flatMap Prod.snd

/-! ## Python string primitives used by several scripts -/

/-- Python's `str.split` with a one-character separator, on character lists:
every occurrence splits, empty pieces are kept, and the empty string yields
`[[]]` (Python: `"".split('.') == ['']`). -/
def splitOnChar (c : Char) : List Char → List (List Char)
  | [] => [[]]
  | x :: rest =>
    let r := splitOnChar c rest
    if x = c then [] :: r
    else
      match r with
      | [] => [[x]]
      | h :: t => (x :: h) :: t

/-- Python's `s.split('.')`. -/
def pySplitDot (s : String) : List String := (splitOnChar '.' s.data).map fun l => ⟨l⟩

/-- Python's `sep.join(parts)`. -/
def pyJoin (sep : String) : List String → String
  | [] => ""
  | [x] => x
  | x :: xs => x ++ sep ++ pyJoin sep xs

/-- Python's `s.startswith(pre)` (via the character lists). -/
def pyStartsWith (s pre : String) : Bool := pre.data.isPrefixOf s.data

/-- Scan every suffix of the haystack for the needle as a prefix. -/
def containsAux (needle : List Char) : List Char → Bool
  | [] => needle.isEmpty
  | c :: t => needle.isPrefixOf (c :: t) || containsAux needle t

/-- Whether `needle` occurs as a contiguous substring of `hay`
(character-list infix), as an executable check. -/
def strContainsSub (hay needle : String) : Bool :=
  containsAux needle.data hay.data

/-! ## release-jira-version: `release_and_create_jira_version.py` -/

/-- One step of Python's `int()` digit scan: digits accumulate, a single `'_'`
is allowed between digits.  `lastDigit` records whether the previous character
was a digit (the string must also end in a digit). -/
def pyDigitsAux : List Char → Nat → Bool → Option Nat
  | [], acc, lastDigit => if lastDigit then some acc else none
  | c :: rest, acc, lastDigit =>
    if c.isDigit then pyDigitsAux rest (acc * 10 + (c.toNat - 48)) true
    else if c = '_' ∧ lastDigit then pyDigitsAux rest acc false
    else none

/-- Python's unsigned decimal literal for `int()`: a non-empty digit string,
with single underscores permitted between digits. -/
def pyDigits (cs : List Char) : Option Nat := pyDigitsAux cs 0 false

/-- The whitespace characters Python's `int()` strips (ASCII subset). -/
def isPySpace (c : Char) : Bool :=
  c = ' ' ∨ c = '\t' ∨ c = '\n' ∨ c = '\x0d' ∨ c = '\x0b' ∨ c = '\x0c'

/-- Python's `int(s)` on an ASCII string: strip surrounding whitespace, accept
an optional sign, then a digit string (underscores between digits allowed);
`none` models the `ValueError` branch. -/
def pyInt (s : String) : Option Int :=
  let cs := ((s.data.dropWhile isPySpace).reverse.dropWhile isPySpace).reverse
  match cs with
  | '+' :: rest => (pyDigits rest).map Int.ofNat
  | '-' :: rest => (pyDigits rest).map fun n => -(n : Int)
  | rest => (pyDigits rest).map Int.ofNat

/-- `release_and_create_jira_version.increment_version_string`: split on `'.'`,
convert the last component with `int()` and add one (Python renders the new
component with `str`, matched by `toString` on `Int`); conversion failure is
`sys.exit(1)`, modelled as `.error 1`. -/
def increment_version_string (version_name : String) : Except Nat String :=
  let parts := pySplitDot version_name
  match pyInt (parts.getLast!) with
  | some n => .ok (pyJoin "." (parts.dropLast ++ [toString (n + 1)]))
  | none => .error 1

/-! ## create-jira-version: `create_jira_version.py` -/

/-- `re.match(r'^(.+)\.0$', s)` in Python: `.` matches any character except a
newline, and `$` matches at the end of the string or just before one final
newline.  The returned value is `group(1)`.  Because the tail `".0"` has fixed
length, the decomposition is unique, so a direct computation is faithful. -/
def reMatchDotZero (s : String) : Option String :=
  match s.data.reverse with
  | '0' :: '.' :: rest =>
    if rest ≠ [] ∧ rest.all (· ≠ '\n') then some ⟨rest.reverse⟩ else none
  | '\n' :: '0' :: '.' :: rest =>
    if rest ≠ [] ∧ rest.all (· ≠ '\n') then some ⟨rest.reverse⟩ else none
  | _ => none

/-- `create_jira_version.normalize_version_name`: return `group(1)` when the
pattern `^(.+)\.0$` matches, the input unchanged otherwise. -/
def normalize_version_name (version_name : String) : String :=
  (reMatchDotZero version_name).getD version_name

/-- Spec-side statement that `p` is a valid `group(1)` witness for
`re.match(r'^(.+)\.0$', s)`: `p` is non-empty, newline-free, and `s` is `p`
followed by `".0"`, allowing the single trailing newline `$` tolerates. -/
def DotZeroMatch (s p : String) : Prop :=
  p ≠ "" ∧ '\n' ∉ p.data ∧ (s = p ++ ".0" ∨ s = p ++ ".0\n")

/-! ## update-integration-tickets: `update_integration_tickets.py` -/

/-- A `JIRAError` as the scripts consume it: status code and response text. -/
structure JiraError where
  status_code : Nat
  text : String
deriving DecidableEq, Repr

/-- An issue reachable through an issue link (only `key` is read). -/
structure LinkedIssue where
  key : String
deriving DecidableEq, Repr

/-- One entry of `release_issue.fields.issuelinks`; the code takes
`outwardIssue` when the attribute exists, else `inwardIssue`, else skips. -/
structure IssueLink where
  outwardIssue : Option LinkedIssue
  inwardIssue : Option LinkedIssue
deriving DecidableEq, Repr

/-- A fatal `sys.exit` path: the exit code and the error line printed just
before exiting. -/
structure Fatal where
  exitCode : Nat
  message : String
deriving DecidableEq, Repr

/-- The candidate list built by the loop in `find_linked_ticket`: keys of
linked issues (outward preferred over inward) starting with
`target_project_key + "-"`. -/
def linkedTicketKeys (issuelinks : List IssueLink) (target_project_key : String) :
    List String :=
  issuelinks.filterMap fun link =>
    ((link.outwardIssue).orElse fun _ => link.inwardIssue).bind fun li =>
      if pyStartsWith li.key (target_project_key ++ "-") then some li.key else none

/-- `update_integration_tickets.find_linked_ticket`: exactly one candidate is
returned; zero candidates or several are `sys.exit(1)` with the script's
error messages. -/
def find_linked_ticket (release_key : String) (issuelinks : List IssueLink)
    (target_project_key : String) : Except Fatal String :=
  let linked_tickets := linkedTicketKeys issuelinks target_project_key
  if linked_tickets.length = 0 then
    .error ⟨1, "Error: No linked ticket found in project '" ++ target_project_key ++
      "' for ticket '" ++ release_key ++ "'."⟩
  else if linked_tickets.length > 1 then
    .error ⟨1, "Error: Found multiple linked tickets in project '" ++ target_project_key ++
      "': " ++ pyJoin ", " linked_tickets ++ ". Please ensure only one is linked."⟩
  else
    .ok linked_tickets.head!

/-- The remote responses `update_sqs_fix_versions` can observe: the
`jira.issue(ticket_key)` fetch and the `issue.update(...)` call, either of
which may raise `JIRAError`. -/
structure SqsUpdateApi where
  fetchIssue : Except JiraError LinkedIssue
  updateIssue : Except JiraError Unit
deriving Repr

/-- Outcome of a script fragment: the stderr lines it printed, the stdout
lines it printed, and `some code` when it called `sys.exit(code)`. -/
structure RunOutcome where
  stderr : List String
  stdout : List String
  exit : Option Nat
deriving DecidableEq, Repr

/-- `update_integration_tickets.update_sqs_fix_versions`: a no-op on a falsy
(absent or empty) fix-versions string; otherwise fetch then update, and catch
any `JIRAError` from either call as a `##[warning]` line — never exiting. -/
def update_sqs_fix_versions (api : SqsUpdateApi) (ticket_key : String)
    (fix_versions_str : Option String) : RunOutcome :=
  match fix_versions_str with
  | none => ⟨[], [], none⟩
  | some fv =>
    if fv = "" then ⟨[], [], none⟩
    else
      let attempt := "Attempting to set fix versions for SQS ticket " ++ ticket_key ++
        " to: '" ++ fv ++ "'"
      match api.fetchIssue with
      | .error e =>
        ⟨[attempt, "##[warning]Could not update fix versions for " ++ ticket_key ++
          ". Jira API failed with status " ++ toString e.status_code ++ ": " ++ e.text],
         [], none⟩
      | .ok _ =>
        match api.updateIssue with
        | .error e =>
          ⟨[attempt, "##[warning]Could not update fix versions for " ++ ticket_key ++
            ". Jira API failed with status " ++ toString e.status_code ++ ": " ++ e.text],
           [], none⟩
        | .ok _ =>
          ⟨[attempt, "✅ Successfully updated fix versions for SQS ticket."], [], none⟩

/-- The tail of `update_integration_tickets.main` once the release issue's
links are in hand: discover the SONAR and SC tickets (each discovery may
exit), run the best-effort fix-version push, then print both keys. -/
def update_integration_tickets_main (release_key : String)
    (issuelinks : List IssueLink) (api : SqsUpdateApi)
    (fix_versions_str : Option String) : RunOutcome :=
  match find_linked_ticket release_key issuelinks "SONAR" with
  | .error f => ⟨[f.message], [], some f.exitCode⟩
  | .ok sqs_ticket_key =>
    match find_linked_ticket release_key issuelinks "SC" with
    | .error f => ⟨[f.message], [], some f.exitCode⟩
    | .ok sc_ticket_key =>
      let upd := update_sqs_fix_versions api sqs_ticket_key fix_versions_str
      ⟨upd.stderr,
       ["sqs_ticket_key=" ++ sqs_ticket_key, "sc_ticket_key=" ++ sc_ticket_key],
       none⟩

/-! ## update-release-ticket-status: `update_release_ticket.py` -/

/-- The three remote calls `update_ticket_status` can make, in program order,
with the response each would give if made. -/
structure TicketApi where
  fetchIssue : Except JiraError LinkedIssue
  assignIssue : Except JiraError Unit
  transitionIssue : Except JiraError Unit
deriving Repr

/-- A remote call made by `update_ticket_status`, for ordering arguments. -/
inductive TicketEvent where
  | fetch
  | assign
  | transition
deriving DecidableEq, Repr

/-- Trace of one run of `update_ticket_status`: the remote calls actually
made in order, the stderr lines, and the exit code if `sys.exit` ran. -/
structure TicketRun where
  events : List TicketEvent
  stderr : List String
  exit : Option Nat
deriving DecidableEq, Repr

/-- `update_release_ticket.update_ticket_status`: fetch (404 and other errors
are fatal with distinct messages); when an assignee is given, assign before
any transition, assignment failure being fatal; then transition, failure
again fatal with the remote text echoed. -/
def update_ticket_status (api : TicketApi) (ticket_key new_status : String)
    (assignee_email : Option String) : TicketRun :=
  match api.fetchIssue with
  | .error e =>
    if e.status_code = 404 then
      ⟨[.fetch], ["Fetching ticket: " ++ ticket_key,
        "Error: Ticket '" ++ ticket_key ++ "' not found."], some 1⟩
    else
      ⟨[.fetch], ["Fetching ticket: " ++ ticket_key,
        "Error: Failed to fetch ticket '" ++ ticket_key ++ "'. Status: " ++
          toString e.status_code,
        "Response text: " ++ e.text], some 1⟩
  | .ok _ =>
    let fetchLog := ["Fetching ticket: " ++ ticket_key]
    match assignee_email with
    | some a =>
      match api.assignIssue with
      | .error e =>
        ⟨[.fetch, .assign], fetchLog ++
          ["Attempting to assign ticket to: " ++ a,
           "Error: Failed to assign ticket to '" ++ a ++ "'. Status: " ++
             toString e.status_code,
           "Response text: " ++ e.text,
           "Please ensure the user exists and has assignable permissions for this project."],
          some 1⟩
      | .ok _ =>
        let assignLog := fetchLog ++ ["Attempting to assign ticket to: " ++ a,
          "Successfully assigned ticket to " ++ a]
        match api.transitionIssue with
        | .error e =>
          ⟨[.fetch, .assign, .transition], assignLog ++
            ["Error: Failed to transition ticket to '" ++ new_status ++ "'. Status: " ++
               toString e.status_code,
             "Response text: " ++ e.text,
             "Please ensure this is a valid transition from the ticket's current status."],
            some 1⟩
        | .ok _ =>
          ⟨[.fetch, .assign, .transition], assignLog ++
            ["Successfully transitioned ticket to '" ++ new_status ++ "'."], none⟩
    | none =>
      match api.transitionIssue with
      | .error e =>
        ⟨[.fetch, .transition], fetchLog ++
          ["Error: Failed to transition ticket to '" ++ new_status ++ "'. Status: " ++
             toString e.status_code,
           "Response text: " ++ e.text,
           "Please ensure this is a valid transition from the ticket's current status."],
          some 1⟩
      | .ok _ =>
        ⟨[.fetch, .transition], fetchLog ++
          ["Successfully transitioned ticket to '" ++ new_status ++ "'."], none⟩

/-! ## Concrete inputs used by the witness theorems -/

/-- A prior protection record with every sub-setting enabled, used to
instantiate the C1 preservation theorem. -/
def exampleProtection : BranchProtection :=
  { lock_branch := some false
    enforce_admins := some true
    required_status_checks := some ⟨some true, some ["ci/test"]⟩
    required_pull_request_reviews := some ⟨some true, some false, some 2⟩
    restrictions := some ⟨some [⟨"alice"⟩], some [⟨"release-team"⟩], some [⟨"release-bot"⟩]⟩
    required_linear_history := some true
    allow_force_pushes := some false
    allow_deletions := some false
    block_creations := some true
    required_conversation_resolution := some true
    allow_fork_syncing := some false }

/-- Two issues of listed types, for instantiating the formatting theorems. -/
def exampleIssues : List Issue :=
  [⟨"SIAC-1", "Fix crash", "Bug"⟩, ⟨"SIAC-2", "Add rule", "New Feature"⟩]

/-- An issue list containing an issue whose type is absent from the category
order. -/
def exampleIssuesUnlisted : List Issue :=
  [⟨"SIAC-1", "Fix crash", "Bug"⟩, ⟨"SIAC-3", "Chore", "Task"⟩]

/-- Issue links carrying exactly one SONAR-prefixed and one SC-prefixed
ticket. -/
def exampleLinksOne : List IssueLink :=
  [⟨some ⟨"SONAR-100"⟩, none⟩, ⟨none, some ⟨"SC-7"⟩⟩]

/-- Issue links carrying two SONAR-prefixed tickets. -/
def exampleLinksTwo : List IssueLink :=
  [⟨some ⟨"SONAR-100"⟩, none⟩, ⟨none, some ⟨"SONAR-200"⟩⟩]

/-- A remote state whose ticket fetch fails with 404. -/
def apiNotFound : TicketApi := ⟨.error ⟨404, "Issue does not exist"⟩, .ok (), .ok ()⟩

/-- A remote state whose assignment call is rejected. -/
def apiAssignFail : TicketApi := ⟨.ok ⟨"REL-1"⟩, .error ⟨403, "forbidden"⟩, .ok ()⟩

/-- A remote state whose transition call is rejected. -/
def apiTransitionFail : TicketApi :=
  ⟨.ok ⟨"REL-1"⟩, .ok (), .error ⟨400, "transition not allowed"⟩⟩

/-- A remote state whose SQS-ticket fetch fails with 500. -/
def apiSqsFail : SqsUpdateApi := ⟨.error ⟨500, "boom"⟩, .ok ()⟩

/-! ## Theorems for the claims -/

/-- C1: the payload built by `build_protection_payload` keeps every enabled
sub-setting of the prior record unchanged (admin enforcement, status-check
strictness and contexts, PR-review fields, restriction user/team/app lists and
the optional boolean settings), its `lock_branch` field always equals the
requested lock value, and an absent prior record yields exactly the documented
safe defaults plus the requested lock flag. -/
theorem C1_payload_preserves_settings (cp : BranchProtection) (lock : Bool) :
    (build_protection_payload (some cp) lock).lock_branch = lock ∧
    build_protection_payload none lock =
      { required_status_checks := none
        enforce_admins := true
        required_pull_request_reviews := none
        restrictions := none
        lock_branch := lock
        required_linear_history := true
        allow_force_pushes := false
        allow_deletions := false
        block_creations := false
        required_conversation_resolution := false
        allow_fork_syncing := false } ∧
    (∀ b, cp.enforce_admins = some b →
      (build_protection_payload (some cp) lock).enforce_admins = b) ∧
    (∀ sc b, cp.required_status_checks = some sc → sc.strict = some b →
      ((build_protection_payload (some cp) lock).required_status_checks).map
        StatusChecksOut.strict = some b) ∧
    (∀ sc cs, cp.required_status_checks = some sc → sc.contexts = some cs →
      ((build_protection_payload (some cp) lock).required_status_checks).map
        StatusChecksOut.contexts = some cs) ∧
    (∀ pr b, cp.required_pull_request_reviews = some pr →
      pr.dismiss_stale_reviews = some b →
      ((build_protection_payload (some cp) lock).required_pull_request_reviews).map
        PrReviewsOut.dismiss_stale_reviews = some b) ∧
    (∀ pr b, cp.required_pull_request_reviews = some pr →
      pr.require_code_owner_reviews = some b →
      ((build_protection_payload (some cp) lock).required_pull_request_reviews).map
        PrReviewsOut.require_code_owner_reviews = some b) ∧
    (∀ pr n, cp.required_pull_request_reviews = some pr →
      pr.required_approving_review_count = some n →
      ((build_protection_payload (some cp) lock).required_pull_request_reviews).map
        PrReviewsOut.required_approving_review_count = some n) ∧
    (∀ r us, cp.restrictions = some r → r.users = some us →
      ((build_protection_payload (some cp) lock).restrictions).map
        RestrictionsOut.users = some (us.map UserRef.login)) ∧
    (∀ r ts, cp.restrictions = some r → r.teams = some ts →
      ((build_protection_payload (some cp) lock).restrictions).map
        RestrictionsOut.teams = some (ts.map TeamRef.slug)) ∧
    (∀ r aps, cp.restrictions = some r → r.apps = some aps →
      ((build_protection_payload (some cp) lock).restrictions).map
        RestrictionsOut.apps = some (aps.map AppRef.slug)) ∧
    (∀ b, cp.required_linear_history = some b →
      (build_protection_payload (some cp) lock).required_linear_history = b) ∧
    (∀ b, cp.allow_force_pushes = some b →
      (build_protection_payload (some cp) lock).allow_force_pushes = b) ∧
    (∀ b, cp.allow_deletions = some b →
      (build_protection_payload (some cp) lock).allow_deletions = b) ∧
    (∀ b, cp.block_creations = some b →
      (build_protection_payload (some cp) lock).block_creations = b) ∧
    (∀ b, cp.required_conversation_resolution = some b →
      (build_protection_payload (some cp) lock).required_conversation_resolution = b) ∧
    (∀ b, cp.allow_fork_syncing = some b →
      (build_protection_payload (some cp) lock).allow_fork_syncing = b) := by
  refine ⟨rfl, rfl, ?_, ?_, ?_, ?_, ?_, ?_, ?_, ?_, ?_, ?_, ?_, ?_, ?_, ?_, ?_⟩ <;>
    intros <;> simp [build_protection_payload, *]


/-- C1 witness: the preservation theorem applied to a concrete fully-enabled
prior record and a lock request. -/
theorem C1_payload_preserves_settings_witness :
    (build_protection_payload (some exampleProtection) true).lock_branch = true ∧
    (build_protection_payload (some exampleProtection) true).enforce_admins = true ∧
    ((build_protection_payload (some exampleProtection) true).required_status_checks).map
      StatusChecksOut.strict = some true ∧
    ((build_protection_payload (some exampleProtection) true).required_status_checks).map
      StatusChecksOut.contexts = some ["ci/test"] ∧
    ((build_protection_payload (some exampleProtection) true).required_pull_request_reviews).map
      PrReviewsOut.required_approving_review_count = some 2 ∧
    ((build_protection_payload (some exampleProtection) true).restrictions).map
      RestrictionsOut.users = some ["alice"] ∧
    (build_protection_payload (some exampleProtection) true).block_creations = true := by
  obtain ⟨h1, _, h3, h4, h5, _, _, h8, h9, _, _, _, _, _, h15, _, _⟩ :=
    C1_payload_preserves_settings exampleProtection true
  exact ⟨h1, h3 true rfl, h4 ⟨some true, some ["ci/test"]⟩ true rfl rfl,
    h5 ⟨some true, some ["ci/test"]⟩ ["ci/test"] rfl rfl,
    h8 ⟨some true, some false, some 2⟩ 2 rfl rfl,
    h9 ⟨some [⟨"alice"⟩], some [⟨"release-team"⟩], some [⟨"release-bot"⟩]⟩ [⟨"alice"⟩] rfl rfl,
    h15 true rfl⟩

/-- C3: when the current lock state already equals the requested one,
`main` performs no mutating call and the stdout lines report
`previous_state` equal to `current_state`; when they differ, exactly one
mutation is performed. -/
theorem C3_lock_idempotence (cp : Option BranchProtection) (freeze : Bool)
    (branch : String) :
    (is_branch_locked cp = freeze →
      (lock_branch_main cp freeze branch).1 = [] ∧
      (lock_branch_main cp freeze branch).2 =
        ["previous_state=" ++ pyBoolStr freeze,
         "current_state=" ++ pyBoolStr freeze,
         "branch=" ++ branch]) ∧
    (is_branch_locked cp ≠ freeze →
      (lock_branch_main cp freeze branch).1 = [build_protection_payload cp freeze]) := by
  constructor
  · intro h
    simp [lock_branch_main, h]
  · intro h
    simp [lock_branch_main, h]

/-- C3 witness: an unprotected branch requested unlocked triggers no mutation
and reports matching states; requested locked triggers exactly one mutation. -/
theorem C3_lock_idempotence_witness :
    ((lock_branch_main none false "master").1 = [] ∧
      (lock_branch_main none false "master").2 =
        ["previous_state=false", "current_state=false", "branch=master"]) ∧
    (lock_branch_main none true "master").1 = [build_protection_payload none true] := by
  constructor
  · have h := (C3_lock_idempotence none false "master").1 rfl
    exact ⟨h.1, by rw [h.2]; rfl⟩
  · exact (C3_lock_idempotence none true "master").2 (by decide)

/-- C10: `parse_bool` yields `True` exactly for a boolean `True` or a string
whose lowercasing is `"true"`, `"1"` or `"yes"`; booleans pass through, and
every other string silently yields `False` (the complement of the iff), so no
input is rejected. -/
theorem C10_parse_bool_characterisation :
    (∀ v : PyBoolOrStr, parse_bool v = true ↔
      (v = .bool true ∨ ∃ s, v = .str s ∧
        (pyLower s = "true" ∨ pyLower s = "1" ∨ pyLower s = "yes"))) ∧
    (∀ b, parse_bool (.bool b) = b) := by
  constructor
  · intro v
    cases v with
    | bool b => cases b <;> simp [parse_bool]
    | str s =>
      rw [show parse_bool (.str s) = ["true", "1", "yes"].contains (pyLower s) from rfl,
        List.elem_iff]
      simp [or_assoc]
  · intro b
    rfl

/-- C10 witness: the characterisation applied to a mixed-case truthy string,
a misspelt string (silently `False`) and a boolean. -/
theorem C10_parse_bool_characterisation_witness :
    parse_bool (.str "TRUE") = true ∧
    parse_bool (.str "ture") = false ∧
    parse_bool (.bool false) = false := by
  have h := C10_parse_bool_characterisation
  refine ⟨(h.1 (.str "TRUE")).mpr (Or.inr ⟨"TRUE", rfl, Or.inl (by decide)⟩), ?_, h.2 false⟩
  cases hb : parse_bool (.str "ture") with
  | false => rfl
  | true =>
    rcases (h.1 (.str "ture")).mp hb with hc | ⟨s, hs, hlow⟩
    · cases hc
    · obtain ⟨rfl⟩ := PyBoolOrStr.str.inj hs
      revert hlow
      decide

theorem getLast!_append_singleton (l : List String) (a : String) :
    (l ++ [a]).getLast! = a := by
  cases l with
  | nil => rfl
  | cons x xs => rw [List.cons_append, List.getLast!_cons, List.getLastD_concat]

/-- C4: when the final dot-separated component of a version string parses as
an integer, `increment_version_string` returns the string rebuilt with that
component replaced by its value plus one; when it does not parse, the script
exits fatally with code 1. -/
theorem C4_increment_version (v : String) (init : List String) (lastc : String)
    (h : pySplitDot v = init ++ [lastc]) :
    (∀ n : Int, pyInt lastc = some n →
      increment_version_string v = .ok (pyJoin "." (init ++ [toString (n + 1)]))) ∧
    (pyInt lastc = none → increment_version_string v = .error 1) := by
  constructor
  · intro n hn
    simp [increment_version_string, h, getLast!_append_singleton, List.dropLast_concat, hn]
  · intro hn
    simp [increment_version_string, h, getLast!_append_singleton, hn]

/-- C4 witness: `"1.2.3"` increments to `"1.2.4"`, and a non-numeric final
component (`"1.2.beta"`) is the fatal exit-1 branch. -/
theorem C4_increment_version_witness :
    pySplitDot "1.2.3" = ["1", "2"] ++ ["3"] ∧
    pyInt "3" = some 3 ∧
    pyInt "beta" = none ∧
    increment_version_string "1.2.3" = Except.ok "1.2.4" ∧
    increment_version_string "1.2.beta" = Except.error 1 := by
  refine ⟨by decide, by decide, by decide, ?_, ?_⟩
  · exact ((C4_increment_version "1.2.3" ["1", "2"] "3" (by decide)).1 3 (by decide)).trans rfl
  · exact (C4_increment_version "1.2.beta" ["1", "2"] "beta" (by decide)).2 (by decide)

/-- A string is non-empty exactly when its character list is. -/
theorem str_ne_empty_iff_data (p : String) : p ≠ "" ↔ p.data ≠ [] := by
  rw [not_iff_not, String.ext_iff]

/-- Completeness of the embedded matcher for `^(.+)\.0$`: every valid
`group(1)` decomposition is found. -/
theorem reMatchDotZero_complete (s p : String) (h : DotZeroMatch s p) :
    reMatchDotZero s = some p := by
  have hpd : p.data.reverse ≠ [] := fun hc =>
    (str_ne_empty_iff_data p).mp h.1 (List.reverse_eq_nil_iff.mp hc)
  obtain ⟨-, hmem, hc | hc⟩ := h <;> subst hc
  · have hrev : ((p ++ ".0").data).reverse = '0' :: '.' :: p.data.reverse := by
      show ((p.data ++ ['.', '0'])).reverse = _
      simp
    unfold reMatchDotZero
    rw [hrev]
    simp [hpd, hmem]
  · have hrev : ((p ++ ".0\n").data).reverse = '\n' :: '0' :: '.' :: p.data.reverse := by
      show ((p.data ++ ['.', '0', '\n'])).reverse = _
      simp
    unfold reMatchDotZero
    rw [hrev]
    simp [hpd, hmem]

/-- Soundness of the embedded matcher: whenever it fires, the returned string
is a valid `group(1)` decomposition of the input. -/
theorem reMatchDotZero_sound (s p : String) (h : reMatchDotZero s = some p) :
    DotZeroMatch s p := by
  unfold reMatchDotZero at h
  split at h
  · rename_i rest heq
    split at h
    · rename_i hcond
      obtain ⟨rfl⟩ := Option.some.inj h
      have hs : s.data = rest.reverse ++ ['.', '0'] := by
        have h2 := congrArg List.reverse heq
        simpa using h2
      refine ⟨?_, ?_, Or.inl ?_⟩
      · rw [str_ne_empty_iff_data]
        show rest.reverse ≠ []
        simpa [List.reverse_eq_nil_iff] using hcond.1
      · show '\n' ∉ rest.reverse
        intro hc
        have := List.all_eq_true.mp hcond.2 _ (List.mem_reverse.mp hc)
        simp at this
      · rw [String.ext_iff]
        show s.data = rest.reverse ++ ['.', '0']
        exact hs
    · exact absurd h (by simp)
  · rename_i rest heq
    split at h
    · rename_i hcond
      obtain ⟨rfl⟩ := Option.some.inj h
      have hs : s.data = rest.reverse ++ ['.', '0', '\n'] := by
        have h2 := congrArg List.reverse heq
        simpa using h2
      refine ⟨?_, ?_, Or.inr ?_⟩
      · rw [str_ne_empty_iff_data]
        show rest.reverse ≠ []
        simpa [List.reverse_eq_nil_iff] using hcond.1
      · show '\n' ∉ rest.reverse
        intro hc
        have := List.all_eq_true.mp hcond.2 _ (List.mem_reverse.mp hc)
        simp at this
      · rw [String.ext_iff]
        show s.data = rest.reverse ++ ['.', '0', '\n']
        exact hs
    · exact absurd h (by simp)
  · exact absurd h (by simp)

/-- C5: a version name admitting a `^(.+)\.0$` decomposition is normalized to
its `group(1)` part; when the matcher finds nothing the name is returned
unchanged, and whenever the matcher fires its result really is such a
decomposition (so unmatched names are exactly those returned unchanged). -/
theorem C5_normalize_version (s : String) :
    (∀ p, DotZeroMatch s p → normalize_version_name s = p) ∧
    (reMatchDotZero s = none → normalize_version_name s = s) ∧
    (∀ p, reMatchDotZero s = some p → DotZeroMatch s p) := by
  refine ⟨?_, ?_, ?_⟩
  · intro p hp
    rw [normalize_version_name, reMatchDotZero_complete s p hp]
    rfl
  · intro h
    rw [normalize_version_name, h]
    rfl
  · intro p hp
    exact reMatchDotZero_sound s p hp

/-- C5 witness: `"1.2.0"` is stripped to `"1.2"`, `"1.2.4"` is unchanged, and
the matcher's hit on `"10.20.0"` is a valid decomposition. -/
theorem C5_normalize_version_witness :
    normalize_version_name "1.2.0" = "1.2" ∧
    normalize_version_name "1.2.4" = "1.2.4" ∧
    DotZeroMatch "10.20.0" "10.20" := by
  refine ⟨?_, ?_, ?_⟩
  · exact (C5_normalize_version "1.2.0").1 "1.2" ⟨by decide, by decide, Or.inl rfl⟩
  · exact (C5_normalize_version "1.2.4").2.1 (by decide)
  · exact (C5_normalize_version "10.20.0").2.2 "10.20" (by decide)

theorem sectionsOf_cons (issues : List Issue) (c : String) (rest : List String) :
    sectionsOf issues (c :: rest) =
      if (issues.filter fun i => i.issuetype = c).isEmpty then sectionsOf issues rest
      else (c, issues.filter fun i => i.issuetype = c) :: sectionsOf issues rest := by
  rw [sectionsOf, List.filterMap_cons]
  by_cases hgrp : (issues.filter fun i => i.issuetype = c).isEmpty
  · simp [hgrp, sectionsOf]
  · simp [hgrp, sectionsOf]

theorem flatMap_sections (issues : List Issue) (order : List String)
    (F : String → List Issue → List String) :
    (order.flatMap fun c =>
      if (issues.filter fun i => i.issuetype = c).isEmpty then []
      else F c (issues.filter fun i => i.issuetype = c)) =
    (sectionsOf issues order).flatMap fun s => F s.1 s.2 := by
  induction order with
  | nil => rfl
  | cons c rest ih =>
    rw [List.flatMap_cons, sectionsOf_cons]
    by_cases hgrp : (issues.filter fun i => i.issuetype = c).isEmpty
    · rw [if_pos hgrp, if_pos hgrp, ih, List.nil_append]
    · rw [if_neg hgrp, if_neg hgrp, List.flatMap_cons, ih]

theorem format_md_sections (issues : List Issue) (u p v : String) (order : List String)
    (h : issues ≠ []) :
    format_notes_as_markdown issues u p v order =
      mkMarkdown u p v (sectionsOf issues order) := by
  rw [format_notes_as_markdown, if_neg (by simpa [List.isEmpty_iff] using h), mkMarkdown]
  congr 2
  exact flatMap_sections issues order
    fun c g => ("### " ++ c) :: (g.map (mdIssueLine u) ++ [""])

theorem format_jira_sections (issues : List Issue) (u p v : String) (order : List String)
    (h : issues ≠ []) :
    format_notes_as_jira_markup issues u p v order =
      mkJiraMarkup u p v (sectionsOf issues order) := by
  rw [format_notes_as_jira_markup, if_neg (by simpa [List.isEmpty_iff] using h), mkJiraMarkup]
  congr 2
  exact flatMap_sections issues order
    fun c g => ("h3. " ++ c) :: (g.map (jiraIssueLine u) ++ [""])

theorem sectionsOf_map_fst (issues : List Issue) (order : List String) :
    (sectionsOf issues order).map Prod.fst =
      order.filter fun c => !(issues.filter fun i => i.issuetype = c).isEmpty := by
  induction order with
  | nil => rfl
  | cons c rest ih =>
    rw [sectionsOf_cons, List.filter_cons]
    by_cases hgrp : (issues.filter fun i => i.issuetype = c).isEmpty
    · simp [hgrp, ih]
    · simp [hgrp, ih]

theorem sectionsOf_groups (issues : List Issue) (order : List String) :
    ∀ s ∈ sectionsOf issues order, s.2 = issues.filter fun i => i.issuetype = s.1 := by
  induction order with
  | nil =>
    intro s hs
    simp [sectionsOf] at hs
  | cons c rest ih =>
    intro s hs
    rw [sectionsOf_cons] at hs
    by_cases hgrp : (issues.filter fun i => i.issuetype = c).isEmpty
    · rw [if_pos hgrp] at hs
      exact ih s hs
    · rw [if_neg hgrp] at hs
      rcases List.mem_cons.mp hs with rfl | hs
      · rfl
      · exact ih s hs

theorem mem_renderedIssues (issues : List Issue) (order : List String) (i : Issue) :
    i ∈ renderedIssues issues order ↔ i ∈ issues ∧ i.issuetype ∈ order := by
  unfold renderedIssues
  induction order with
  | nil => simp [sectionsOf]
  | cons c rest ih =>
    rw [sectionsOf_cons]
    by_cases hgrp : (issues.filter fun i => i.issuetype = c).isEmpty
    · rw [if_pos hgrp, ih]
      have hno : ¬(i ∈ issues ∧ i.issuetype = c) := by
        rintro ⟨hi, ht⟩
        have hmem : i ∈ issues.filter fun j => j.issuetype = c :=
          List.mem_filter.mpr ⟨hi, by simp [ht]⟩
        rw [List.isEmpty_iff.mp hgrp] at hmem
        cases hmem
      constructor
      · rintro ⟨hi, ht⟩
        exact ⟨hi, List.mem_cons_of_mem _ ht⟩
      · rintro ⟨hi, ht⟩
        rcases List.mem_cons.mp ht with h1 | h1
        · exact absurd ⟨hi, h1⟩ hno
        · exact ⟨hi, h1⟩
    · rw [if_neg hgrp, List.flatMap_cons, List.mem_append, ih]
      constructor
      · rintro (hmem | ⟨hi, ht⟩)
        · obtain ⟨hi, ht⟩ := List.mem_filter.mp hmem
          exact ⟨hi, List.mem_cons.mpr (Or.inl (by simpa using ht))⟩
        · exact ⟨hi, List.mem_cons_of_mem _ ht⟩
      · rintro ⟨hi, ht⟩
        rcases List.mem_cons.mp ht with h1 | h1
        · exact Or.inl (List.mem_filter.mpr ⟨hi, by simp [h1]⟩)
        · exact Or.inr ⟨hi, h1⟩

/-- C2 counterexample: on an empty issue list the markdown output is not the
bare literal `"No issues found for this release."` — the title header line
precedes it. -/
theorem C2_empty_output_not_bare_literal :
    format_notes_as_markdown [] "https://sonarsource.atlassian.net" "SonarIaC" "11.14"
        ["New Feature", "Bug", "Improvement"] ≠
      "No issues found for this release." := by
  decide

/-- C2 (amended): on the empty issue list both dialects emit exactly the
title header, a blank line and the placeholder literal — no category
sections; on a non-empty list the output is assembled from the populated
sections, which appear in exactly the order given and each contain precisely
the issues of that category in input order. -/
theorem C2_release_notes_format (issues : List Issue) (u p v : String)
    (order : List String) :
    format_notes_as_markdown [] u p v order =
      "# Release notes - " ++ p ++ " - " ++ v ++ "\n\nNo issues found for this release." ∧
    format_notes_as_jira_markup [] u p v order =
      "h1. Release notes - " ++ p ++ " - " ++ v ++ "\n\nNo issues found for this release." ∧
    (issues ≠ [] →
      format_notes_as_markdown issues u p v order =
        mkMarkdown u p v (sectionsOf issues order) ∧
      format_notes_as_jira_markup issues u p v order =
        mkJiraMarkup u p v (sectionsOf issues order) ∧
      (sectionsOf issues order).map Prod.fst =
        (order.filter fun c => !(issues.filter fun i => i.issuetype = c).isEmpty) ∧
      ∀ s ∈ sectionsOf issues order, s.2 = issues.filter fun i => i.issuetype = s.1) :=
  ⟨rfl, rfl, fun h =>
    ⟨format_md_sections issues u p v order h, format_jira_sections issues u p v order h,
      sectionsOf_map_fst issues order, sectionsOf_groups issues order⟩⟩


/-- C2 witness: the formatting theorem applied to a concrete non-empty issue
list, with the section order evaluated. -/
theorem C2_release_notes_format_witness :
    format_notes_as_markdown exampleIssues "https://x/" "P" "1.0" ["New Feature", "Bug"] =
      mkMarkdown "https://x/" "P" "1.0" (sectionsOf exampleIssues ["New Feature", "Bug"]) ∧
    (sectionsOf exampleIssues ["New Feature", "Bug"]).map Prod.fst =
      ["New Feature", "Bug"] := by
  obtain ⟨-, -, h3⟩ :=
    C2_release_notes_format exampleIssues "https://x/" "P" "1.0" ["New Feature", "Bug"]
  obtain ⟨hmd, -, hfst, -⟩ := h3 (by decide)
  exact ⟨hmd, hfst.trans (by decide)⟩

/-- C9: on a non-empty issue list both dialects render exactly the populated
sections, and an issue is rendered if and only if it belongs to the input and
its type is listed in the category order — issues of unlisted types are
silently dropped. -/
theorem C9_unlisted_types_dropped (issues : List Issue) (u p v : String)
    (order : List String) (h : issues ≠ []) :
    format_notes_as_markdown issues u p v order =
      mkMarkdown u p v (sectionsOf issues order) ∧
    format_notes_as_jira_markup issues u p v order =
      mkJiraMarkup u p v (sectionsOf issues order) ∧
    ∀ i : Issue, i ∈ renderedIssues issues order ↔ i ∈ issues ∧ i.issuetype ∈ order :=
  ⟨format_md_sections issues u p v order h, format_jira_sections issues u p v order h,
    fun i => mem_renderedIssues issues order i⟩


/-- C9 witness: with order `["Bug"]` the `"Task"` issue is dropped from the
rendering while the `"Bug"` issue is kept. -/
theorem C9_unlisted_types_dropped_witness :
    format_notes_as_markdown exampleIssuesUnlisted "https://x" "P" "1.0" ["Bug"] =
      mkMarkdown "https://x" "P" "1.0" (sectionsOf exampleIssuesUnlisted ["Bug"]) ∧
    renderedIssues exampleIssuesUnlisted ["Bug"] = [⟨"SIAC-1", "Fix crash", "Bug"⟩] ∧
    ((⟨"SIAC-3", "Chore", "Task"⟩ : Issue) ∈ renderedIssues exampleIssuesUnlisted ["Bug"] ↔
      (⟨"SIAC-3", "Chore", "Task"⟩ : Issue) ∈ exampleIssuesUnlisted ∧
        "Task" ∈ ["Bug"]) := by
  obtain ⟨h1, -, h3⟩ :=
    C9_unlisted_types_dropped exampleIssuesUnlisted "https://x" "P" "1.0" ["Bug"] (by decide)
  exact ⟨h1, by decide, h3 ⟨"SIAC-3", "Chore", "Task"⟩⟩

theorem containsAux_decomp (needle : List Char) :
    ∀ a b : List Char, containsAux needle (a ++ (needle ++ b)) = true := by
  intro a
  induction a with
  | nil =>
    intro b
    cases needle with
    | nil => cases b <;> rfl
    | cons n nt =>
      show containsAux (n :: nt) ((n :: nt) ++ b) = true
      rw [List.cons_append]
      show ((n :: nt).isPrefixOf (n :: (nt ++ b)) || _) = true
      have : (n :: nt).isPrefixOf (n :: (nt ++ b)) = true :=
        List.isPrefixOf_iff_prefix.mpr (List.prefix_append (n :: nt) b)
      rw [this, Bool.true_or]
  | cons x a' ih =>
    intro b
    rw [List.cons_append]
    show (needle.isPrefixOf _ || containsAux needle (a' ++ (needle ++ b))) = true
    rw [ih b, Bool.or_true]

theorem strContainsSub_of_decomp (hay k : String) (a b : List Char)
    (h : hay.data = a ++ (k.data ++ b)) : strContainsSub hay k = true := by
  rw [strContainsSub, h]
  exact containsAux_decomp k.data a b

/-- A member of a joined list occurs contiguously in the join. -/
theorem pyJoin_mem_decomp (sep : String) :
    ∀ (l : List String) (k : String), k ∈ l →
      ∃ a b : List Char, (pyJoin sep l).data = a ++ (k.data ++ b) := by
  intro l
  induction l with
  | nil =>
    intro k hk
    cases hk
  | cons x xs ih =>
    intro k hk
    cases xs with
    | nil =>
      rcases List.mem_cons.mp hk with rfl | hk
      · exact ⟨[], [], by simp [pyJoin]⟩
      · cases hk
    | cons y ys =>
      rcases List.mem_cons.mp hk with rfl | hk
      · refine ⟨[], (sep ++ pyJoin sep (y :: ys)).data, ?_⟩
        show (k ++ sep ++ pyJoin sep (y :: ys)).data = _
        simp [String.data_append]
      · obtain ⟨a, b, hab⟩ := ih k hk
        refine ⟨(x ++ sep).data ++ a, b, ?_⟩
        show (x ++ sep ++ pyJoin sep (y :: ys)).data = _
        simp [String.data_append, hab]

/-- C6: `find_linked_ticket` succeeds exactly when the candidate list built
from the issue links has length one (in which case it returns that key);
zero candidates and two-or-more candidates are both `sys.exit(1)`, and in the
two-or-more case every found key occurs in the error message. -/
theorem C6_find_linked_ticket (rk proj : String) (links : List IssueLink) :
    ((∃ k, find_linked_ticket rk links proj = .ok k) ↔
      (linkedTicketKeys links proj).length = 1) ∧
    (∀ k, linkedTicketKeys links proj = [k] →
      find_linked_ticket rk links proj = .ok k) ∧
    (linkedTicketKeys links proj = [] →
      find_linked_ticket rk links proj = .error ⟨1,
        "Error: No linked ticket found in project '" ++ proj ++
          "' for ticket '" ++ rk ++ "'."⟩) ∧
    (1 < (linkedTicketKeys links proj).length →
      find_linked_ticket rk links proj = .error ⟨1,
        "Error: Found multiple linked tickets in project '" ++ proj ++ "': " ++
          pyJoin ", " (linkedTicketKeys links proj) ++
          ". Please ensure only one is linked."⟩ ∧
      ∀ k ∈ linkedTicketKeys links proj,
        strContainsSub
          ("Error: Found multiple linked tickets in project '" ++ proj ++ "': " ++
            pyJoin ", " (linkedTicketKeys links proj) ++
            ". Please ensure only one is linked.") k = true) := by
  have hzero : linkedTicketKeys links proj = [] →
      find_linked_ticket rk links proj = .error ⟨1,
        "Error: No linked ticket found in project '" ++ proj ++
          "' for ticket '" ++ rk ++ "'."⟩ := by
    intro h
    simp [find_linked_ticket, h]
  have hone : ∀ k, linkedTicketKeys links proj = [k] →
      find_linked_ticket rk links proj = .ok k := by
    intro k h
    simp [find_linked_ticket, h]
  have hmulti : 1 < (linkedTicketKeys links proj).length →
      find_linked_ticket rk links proj = .error ⟨1,
        "Error: Found multiple linked tickets in project '" ++ proj ++ "': " ++
          pyJoin ", " (linkedTicketKeys links proj) ++
          ". Please ensure only one is linked."⟩ := by
    intro h
    have h0 : ¬ (linkedTicketKeys links proj).length = 0 := by omega
    simp [find_linked_ticket, h0, h]
  refine ⟨?_, hone, hzero, fun h => ⟨hmulti h, ?_⟩⟩
  · constructor
    · rintro ⟨k, hk⟩
      rcases Nat.lt_trichotomy (linkedTicketKeys links proj).length 1 with h | h | h
      · have hnil : linkedTicketKeys links proj = [] :=
          List.length_eq_zero.mp (by omega)
        rw [hzero hnil] at hk
        cases hk
      · exact h
      · rw [hmulti h] at hk
        cases hk
    · intro h
      obtain ⟨a, ha⟩ := List.length_eq_one.mp h
      exact ⟨a, hone a ha⟩
  · intro k hk
    obtain ⟨a, b, hab⟩ := pyJoin_mem_decomp ", " (linkedTicketKeys links proj) k hk
    refine strContainsSub_of_decomp _ k
      (("Error: Found multiple linked tickets in project '" ++ proj ++ "': ").data ++ a)
      (b ++ ". Please ensure only one is linked.".data) ?_
    simp [String.data_append, hab]



/-- C6 witness: one match returns the key; zero matches and two matches are
the exit-1 branches, and both found keys occur in the two-match message. -/
theorem C6_find_linked_ticket_witness :
    find_linked_ticket "REL-1" exampleLinksOne "SONAR" = .ok "SONAR-100" ∧
    find_linked_ticket "REL-1" exampleLinksOne "TPD" = .error ⟨1,
      "Error: No linked ticket found in project 'TPD' for ticket 'REL-1'."⟩ ∧
    find_linked_ticket "REL-1" exampleLinksTwo "SONAR" = .error ⟨1,
      "Error: Found multiple linked tickets in project 'SONAR': SONAR-100, SONAR-200. Please ensure only one is linked."⟩ ∧
    strContainsSub
      "Error: Found multiple linked tickets in project 'SONAR': SONAR-100, SONAR-200. Please ensure only one is linked."
      "SONAR-100" = true ∧
    strContainsSub
      "Error: Found multiple linked tickets in project 'SONAR': SONAR-100, SONAR-200. Please ensure only one is linked."
      "SONAR-200" = true := by
  have h2 := (C6_find_linked_ticket "REL-1" "SONAR" exampleLinksTwo).2.2.2 (by decide)
  exact ⟨(C6_find_linked_ticket "REL-1" "SONAR" exampleLinksOne).2.1 "SONAR-100" (by decide),
    (C6_find_linked_ticket "REL-1" "TPD" exampleLinksOne).2.2.1 (by decide),
    h2.1, h2.2 "SONAR-100" (by decide), h2.2 "SONAR-200" (by decide)⟩

/-- C7: fetching a missing ticket (404) is fatal with the "not found" message
and no further remote call; with an assignee, the assignment call always
precedes any transition and a failed assignment exits fatally with the
transition never attempted; a rejected transition exits with code 1 (never 0)
and the remote error text appears in the failure output. -/
theorem C7_update_ticket_status (api : TicketApi) (k st : String)
    (assignee : Option String) :
    (∀ e, api.fetchIssue = .error e → e.status_code = 404 →
      (update_ticket_status api k st assignee).exit = some 1 ∧
      ("Error: Ticket '" ++ k ++ "' not found.") ∈
        (update_ticket_status api k st assignee).stderr ∧
      (update_ticket_status api k st assignee).events = [.fetch]) ∧
    (∀ a i, assignee = some a → api.fetchIssue = .ok i →
      ((update_ticket_status api k st assignee).events = [.fetch, .assign] ∨
        (update_ticket_status api k st assignee).events =
          [.fetch, .assign, .transition]) ∧
      (∀ e, api.assignIssue = .error e →
        (update_ticket_status api k st assignee).exit = some 1 ∧
        TicketEvent.transition ∉ (update_ticket_status api k st assignee).events)) ∧
    (∀ i, api.fetchIssue = .ok i → (assignee = none ∨ api.assignIssue = .ok ()) →
      ∀ e, api.transitionIssue = .error e →
        (update_ticket_status api k st assignee).exit = some 1 ∧
        ("Response text: " ++ e.text) ∈
          (update_ticket_status api k st assignee).stderr) := by
  refine ⟨?_, ?_, ?_⟩
  · intro e he h404
    simp [update_ticket_status, he, h404]
  · intro a i ha hi
    subst ha
    constructor
    · cases hassign : api.assignIssue with
      | error e2 => exact Or.inl (by simp [update_ticket_status, hi, hassign])
      | ok u =>
        cases htr : api.transitionIssue with
        | error e3 => exact Or.inr (by simp [update_ticket_status, hi, hassign, htr])
        | ok w => exact Or.inr (by simp [update_ticket_status, hi, hassign, htr])
    · intro e2 he2
      simp [update_ticket_status, hi, he2]
  · intro i hi hass e3 he3
    rcases hass with hnone | hok
    · subst hnone
      simp [update_ticket_status, hi, he3]
    · cases assignee with
      | none => simp [update_ticket_status, hi, he3]
      | some a => simp [update_ticket_status, hi, hok, he3]




/-- C7 witness: the three failure scenarios at concrete remote states. -/
theorem C7_update_ticket_status_witness :
    ((update_ticket_status apiNotFound "REL-1" "Start Progress" none).exit = some 1 ∧
      "Error: Ticket 'REL-1' not found." ∈
        (update_ticket_status apiNotFound "REL-1" "Start Progress" none).stderr ∧
      (update_ticket_status apiNotFound "REL-1" "Start Progress" none).events =
        [.fetch]) ∧
    ((update_ticket_status apiAssignFail "REL-1" "Start Progress"
        (some "user@example.com")).exit = some 1 ∧
      TicketEvent.transition ∉
        (update_ticket_status apiAssignFail "REL-1" "Start Progress"
          (some "user@example.com")).events) ∧
    ((update_ticket_status apiTransitionFail "REL-1" "Technical Release Done"
        none).exit = some 1 ∧
      "Response text: transition not allowed" ∈
        (update_ticket_status apiTransitionFail "REL-1" "Technical Release Done"
          none).stderr) := by
  refine ⟨?_, ?_, ?_⟩
  · exact (C7_update_ticket_status apiNotFound "REL-1" "Start Progress" none).1
      ⟨404, "Issue does not exist"⟩ rfl rfl
  · exact ((C7_update_ticket_status apiAssignFail "REL-1" "Start Progress"
      (some "user@example.com")).2.1 "user@example.com" ⟨"REL-1"⟩ rfl rfl).2
      ⟨403, "forbidden"⟩ rfl
  · exact (C7_update_ticket_status apiTransitionFail "REL-1" "Technical Release Done"
      none).2.2 ⟨"REL-1"⟩ rfl (Or.inl rfl) ⟨400, "transition not allowed"⟩ rfl

/-- C8: the fix-version push never exits — on either remote failure it logs
the `##[warning]` line and control continues — and when both linked tickets
were discovered, `main` still prints both keys on stdout and exits normally,
whatever the push's remote outcome. -/
theorem C8_fix_versions_best_effort (api : SqsUpdateApi) (tk rk : String)
    (links : List IssueLink) (fvs : Option String) :
    (update_sqs_fix_versions api tk fvs).exit = none ∧
    (∀ fv e, fvs = some fv → fv ≠ "" → api.fetchIssue = .error e →
      ("##[warning]Could not update fix versions for " ++ tk ++
        ". Jira API failed with status " ++ toString e.status_code ++ ": " ++ e.text) ∈
        (update_sqs_fix_versions api tk fvs).stderr) ∧
    (∀ fv i e, fvs = some fv → fv ≠ "" → api.fetchIssue = .ok i →
      api.updateIssue = .error e →
      ("##[warning]Could not update fix versions for " ++ tk ++
        ". Jira API failed with status " ++ toString e.status_code ++ ": " ++ e.text) ∈
        (update_sqs_fix_versions api tk fvs).stderr) ∧
    (∀ sqs sc, find_linked_ticket rk links "SONAR" = .ok sqs →
      find_linked_ticket rk links "SC" = .ok sc →
      (update_integration_tickets_main rk links api fvs).exit = none ∧
      (update_integration_tickets_main rk links api fvs).stdout =
        ["sqs_ticket_key=" ++ sqs, "sc_ticket_key=" ++ sc]) := by
  refine ⟨?_, ?_, ?_, ?_⟩
  · cases fvs with
    | none => rfl
    | some fv =>
      by_cases hfv : fv = ""
      · simp [update_sqs_fix_versions, hfv]
      · cases hf : api.fetchIssue with
        | error e => simp [update_sqs_fix_versions, hfv, hf]
        | ok i =>
          cases hu : api.updateIssue with
          | error e => simp [update_sqs_fix_versions, hfv, hf, hu]
          | ok u => simp [update_sqs_fix_versions, hfv, hf, hu]
  · intro fv e hfvs hfv hf
    subst hfvs
    simp [update_sqs_fix_versions, hfv, hf]
  · intro fv i e hfvs hfv hf hu
    subst hfvs
    simp [update_sqs_fix_versions, hfv, hf, hu]
  · intro sqs sc h1 h2
    simp [update_integration_tickets_main, h1, h2]


/-- C8 witness: with a failing fix-version push the script never exits, the
warning line is logged, and both discovered keys still reach stdout. -/
theorem C8_fix_versions_best_effort_witness :
    (update_sqs_fix_versions apiSqsFail "SONAR-100" (some "10.1, 10.2")).exit = none ∧
    ("##[warning]Could not update fix versions for SONAR-100. " ++
      "Jira API failed with status 500: boom") ∈
      (update_sqs_fix_versions apiSqsFail "SONAR-100" (some "10.1, 10.2")).stderr ∧
    (update_integration_tickets_main "REL-1" exampleLinksOne apiSqsFail
      (some "10.1, 10.2")).exit = none ∧
    (update_integration_tickets_main "REL-1" exampleLinksOne apiSqsFail
      (some "10.1, 10.2")).stdout =
      ["sqs_ticket_key=SONAR-100", "sc_ticket_key=SC-7"] := by
  have hmain := (C8_fix_versions_best_effort apiSqsFail "SONAR-100" "REL-1"
    exampleLinksOne (some "10.1, 10.2")).2.2.2 "SONAR-100" "SC-7" rfl rfl
  exact ⟨(C8_fix_versions_best_effort apiSqsFail "SONAR-100" "REL-1"
      exampleLinksOne (some "10.1, 10.2")).1,
    (C8_fix_versions_best_effort apiSqsFail "SONAR-100" "REL-1"
      exampleLinksOne (some "10.1, 10.2")).2.1 "10.1, 10.2" ⟨500, "boom"⟩ rfl
      (by decide) rfl,
    hmain.1, hmain.2⟩

end ReleaseActions
